import Mathlib

/-!
Verification development for the mcp-fetch server.

The TypeScript sources are embedded shallowly: pure computations become Lean
functions, the external collaborators (HTTP transport, sharp image library,
DOM/readability, robots policy parser, shell helpers) become explicit oracle
parameters, and thrown JavaScript errors become `Except`/`Option` results.
Filesystem side effects of the clipboard publish step are modelled as explicit
event traces.
-/

namespace McpFetch

/-! ## Constants of `addImagesToClipboard` -/

/-- Maximum cumulative pixel height of one image group. -/
def MAX_HEIGHT : Nat := 8000

/-- Maximum cumulative byte size of one image group (30 MiB, `30 * 1024 * 1024`). -/
def MAX_SIZE_BYTES : Nat := 30 * 1024 * 1024

/-- Maximum number of images in one group. -/
def MAX_IMAGES_PER_GROUP : Nat := 6

/-! ## Greedy grouping loop of `addImagesToClipboard`

The loop iterates over the fetched images keeping `currentGroup`,
`currentHeight` and `currentSize`; when adding the next image would break a
constraint it flushes the current group via `processGroup` (which returns at
once on an empty group) and starts a fresh group holding just that image.
The image dimensions come from `getImageDimensions` (sharp metadata height-or-0
plus buffer byte length); here they are supplied by the oracle `dims`, mapping
an image buffer to its `(height, size)` pair. -/

section Grouping

variable {β : Type}

/-- `processGroup` returns immediately on an empty group; a non-empty group is
sealed as one group. -/
def emitGroup (group : List β) : List (List β) :=
  if group.length = 0 then [] else [group]

/-- The grouping portion of the `for (const img of images)` loop of
`addImagesToClipboard`: arguments are remaining images, sealed groups so far,
current group, current height, current size. -/
def groupLoop (dims : β → Nat × Nat) :
    List β → List (List β) → List β → Nat → Nat → List (List β)
  | [], done, cur, _, _ => done ++ emitGroup cur
  | img :: rest, done, cur, curH, curS =>
    let h := (dims img).1
    let s := (dims img).2
    if MAX_IMAGES_PER_GROUP ≤ cur.length ∨ MAX_HEIGHT < curH + h ∨
        MAX_SIZE_BYTES < curS + s then
      groupLoop dims rest (done ++ emitGroup cur) [img] h s
    else
      groupLoop dims rest done (cur ++ [img]) (curH + h) (curS + s)

/-- The sequence of groups sealed by `addImagesToClipboard` for a given input
sequence of image buffers. -/
def groupImages (dims : β → Nat × Nat) (images : List β) : List (List β) :=
  groupLoop dims images [] [] 0 0

/-- Cumulative pixel height of a group. -/
def groupHeight (dims : β → Nat × Nat) (g : List β) : Nat :=
  (g.map (fun b => (dims b).1)).sum

/-- Cumulative byte size of a group. -/
def groupSize (dims : β → Nat × Nat) (g : List β) : Nat :=
  (g.map (fun b => (dims b).2)).sum

/-- An image buffer that on its own breaks a group constraint. -/
def oversize (dims : β → Nat × Nat) (b : β) : Prop :=
  MAX_HEIGHT < (dims b).1 ∨ MAX_SIZE_BYTES < (dims b).2

/-- The invariant actually maintained for every sealed group: at most six
members, the cumulative bounds hold whenever the group has at least two
members, and a member breaking a bound by itself is alone in its group. -/
def goodGroup (dims : β → Nat × Nat) (g : List β) : Prop :=
  g.length ≤ MAX_IMAGES_PER_GROUP ∧
  (2 ≤ g.length → groupHeight dims g ≤ MAX_HEIGHT ∧ groupSize dims g ≤ MAX_SIZE_BYTES) ∧
  (∀ b ∈ g, oversize dims b → g = [b])

end Grouping

/-! ## Truncation window of the `tools/call` handler

The handler computes `finalContent` from the fetched `content`: when
`content.length > maxLength` it slices `[startIndex, startIndex + maxLength)`
and appends a truncation notice naming the next start index.  Lengths and
indices are in characters (`String.length` counts characters, not bytes),
matching the JavaScript string operations. -/

/-- `String.prototype.slice(startIndex, endIndex)` for indices with
`startIndex ≤ endIndex` (the only shape the handler uses). -/
def jsSlice (s : String) (startIndex endIndex : Nat) : String :=
  ((s.toList.drop startIndex).take (endIndex - startIndex)).asString

/-- The notice appended after a truncated excerpt; `nextStart` is the start
index the caller should pass to continue reading. -/
def truncationNotice (nextStart : Nat) : String :=
  "\n\n<e>Content truncated. Call the fetch tool with a start_index of " ++
    toString nextStart ++ " to get more content.</e>"

/-- The `finalContent` computation of the `CallToolSchema` handler. -/
def finalContentOf (content : String) (maxLength startIndex : Nat) : String :=
  if maxLength < content.length then
    jsSlice content startIndex (startIndex + maxLength) ++
      truncationNotice (startIndex + maxLength)
  else content

/-! ## Robots policy gate (`checkRobotsTxt`)

The HTTP transport and the robots-parser library are oracles: `fetchText`
returns the response for a URL, or an error when the fetch itself throws at
the transport level (DNS failure, refused connection); `isAllowed robotsUrl
robotsTxt url ua` stands for
`robotsParser(robotsUrl, robotsTxt).isAllowed(url, ua)`. -/

/-- An HTTP response as seen through node-fetch: a status code and a body. -/
structure HttpResponse (β : Type) where
  status : Nat
  body : β
deriving DecidableEq

/-- `response.ok`: status in the 2xx range. -/
def respOk {β : Type} (r : HttpResponse β) : Bool :=
  200 ≤ r.status && r.status < 300

/-- The parts of `new URL(url)` that `checkRobotsTxt` uses. -/
structure UrlParts where
  protocol : String
  host : String

/-- The policy resource URL: scheme + host + "/robots.txt". -/
def robotsUrlOf (u : UrlParts) : String :=
  u.protocol ++ "//" ++ u.host ++ "/robots.txt"

/-- The robots policy gate: fetch the origin's robots.txt; 401/403 responses
fail closed, any other non-ok response fails open, and a parsed policy that
disallows the client identity raises a descriptive error.  The
`await fetch(robotsUrl)` is not inside a try, so a transport-level throw
propagates out of the gate unchanged. -/
def checkRobotsTxt (parseUrl : String → UrlParts)
    (fetchText : String → Except String (HttpResponse String))
    (isAllowed : String → String → String → String → Bool)
    (url userAgent : String) : Except String Bool :=
  let robotsUrl := robotsUrlOf (parseUrl url)
  match fetchText robotsUrl with
  | Except.error e => Except.error e
  | Except.ok response =>
    if !(respOk response) then
      if response.status == 401 || response.status == 403 then
        Except.error "Autonomous fetching not allowed based on robots.txt response"
      else
        Except.ok true
    else
      let robotsTxt := response.body
      if !(isAllowed robotsUrl robotsTxt url userAgent) then
        Except.error ("The site's robots.txt specifies that autonomous fetching is not allowed. " ++
          "Try manually fetching the page using the fetch prompt.")
      else
        Except.ok true

/-! ## Article extraction (`extractContentFromHtml`)

JSDOM, Readability and Turndown are oracles: `readabilityParse html url`
returns the extracted article content (none when the article is null; the
code also treats an empty content string as a failed extraction), and
`querySelectImgs content` lists the `img` elements of the document built from
the extracted content, in document order, with their reflected `src`
(resolved by the DOM layer) and optional `alt`. -/

/-- An `img` element as enumerated by `querySelectorAll("img")`. -/
structure ImgEl where
  src : String
  alt : Option String
deriving DecidableEq

/-- The `Image` interface: `{ src, alt }`. -/
structure ImageRec where
  src : String
  alt : String
deriving DecidableEq

/-- The `ExtractedContent` interface: markdown plus the image list. -/
structure ExtractedContent where
  markdown : String
  images : List ImageRec
deriving DecidableEq

/-- `extractContentFromHtml`: readability extraction, then image enumeration
over the extracted article content only (`new JSDOM(article.content)`), then
markdown rendering.  The string sentinel return is modelled as `Except.error`. -/
def extractContentFromHtml (readabilityParse : String → String → Option String)
    (querySelectImgs : String → List ImgEl)
    (turndown : String → String)
    (html url : String) : Except String ExtractedContent :=
  match readabilityParse html url with
  | none => Except.error "<e>Page failed to be simplified from HTML</e>"
  | some articleContent =>
    if articleContent = "" then
      Except.error "<e>Page failed to be simplified from HTML</e>"
    else
      let imgElements := querySelectImgs articleContent
      let images := imgElements.map (fun img =>
        { src := img.src, alt := img.alt.getD "" })
      Except.ok { markdown := turndown articleContent, images := images }

/-! ## Image acquisition (`fetchImages`)

Two variants exist in the sources.  The sequential variant (the one feeding
the clipboard pipeline) throws on the first image whose response is not ok;
the concurrent variant skips failed images.  The sharp library is an oracle:
`metadata` probes a buffer, `firstFramePng` re-encodes the first frame of an
animated GIF as PNG; either may fail. -/

/-- Sharp metadata fields the code reads. -/
structure SharpMetadata where
  width : Option Nat
  height : Option Nat
  pages : Option Nat
deriving DecidableEq

/-- `Image & { data: Buffer }`: an image whose bytes have been acquired. -/
structure FetchedImage (β : Type) where
  src : String
  alt : String
  data : β
deriving DecidableEq

/-- The GIF branch of the acquisition loop: for a `.gif` source URL whose
metadata probe reports more than one page, replace the buffer by the PNG
re-encoding of the first frame; every failure inside the `try` (metadata
probe or re-encode) falls back to the original buffer. -/
def gifNormalize {β : Type} (metadata : β → Except String SharpMetadata)
    (firstFramePng : β → Except String β)
    (src : String) (imageBuffer : β) : β :=
  if src.toLower.endsWith ".gif" then
    match metadata imageBuffer with
    | Except.ok md =>
      match md.pages with
      | some pages =>
        if 1 < pages then
          match firstFramePng imageBuffer with
          | Except.ok firstFrame => firstFrame
          | Except.error _ => imageBuffer
        else imageBuffer
      | none => imageBuffer
    | Except.error _ => imageBuffer
  else imageBuffer

/-- The sequential `fetchImages`: fetch each image in order; a transport
failure or a non-ok response aborts the whole batch with an error; GIF
sources are normalized via `gifNormalize`. -/
def fetchImages {β : Type} (fetchResp : String → Except String (HttpResponse β))
    (metadata : β → Except String SharpMetadata)
    (firstFramePng : β → Except String β) :
    List ImageRec → Except String (List (FetchedImage β))
  | [] => Except.ok []
  | img :: rest =>
    match fetchResp img.src with
    | Except.error e => Except.error e
    | Except.ok response =>
      if !(respOk response) then
        Except.error ("Failed to fetch image " ++ img.src ++ ": status " ++
          toString response.status)
      else
        let processed := gifNormalize metadata firstFramePng img.src response.body
        match fetchImages fetchResp metadata firstFramePng rest with
        | Except.ok tail =>
          Except.ok ({ src := img.src, alt := img.alt, data := processed } :: tail)
        | Except.error e => Except.error e

/-- The concurrent `fetchImages` variant: each image maps to its fetched
record or `null` (transport failure or non-ok response), and the nulls are
filtered out. -/
def fetchImagesLenient {β : Type}
    (fetchResp : String → Except String (HttpResponse β))
    (images : List ImageRec) : List (FetchedImage β) :=
  (images.map (fun img =>
    match fetchResp img.src with
    | Except.ok response =>
      if respOk response then
        some { src := img.src, alt := img.alt, data := response.body }
      else none
    | Except.error _ => none)).filterMap id

/-- Whether one image would be acquired successfully. -/
def imgAcquired {β : Type} (fetchResp : String → Except String (HttpResponse β))
    (img : ImageRec) : Bool :=
  match fetchResp img.src with
  | Except.ok response => respOk response
  | Except.error _ => false

/-! ## Clipboard publish step (`addImagesToClipboard`)

The filesystem effects are recorded as an event trace: clearing the temp
directory at the start, writing each merged composite, and removing the temp
directory at the end.  The osascript copy step's diagnostic output is the
oracle `copyStderr`, giving the stderr lines of the copy command for the
k-th sealed group; lines containing "WARNING:" are ignored, any other line
makes the copy step throw.  The paste step only logs on failure and has no
modelled effect. -/

/-- Substring test over character lists: does the haystack start with the
needle? -/
def charsBeginWith : List Char → List Char → Bool
  | [], _ => true
  | _ :: _, [] => false
  | a :: as, b :: bs => a == b && charsBeginWith as bs

/-- Substring test over character lists: does the needle occur anywhere in
the haystack? -/
def charsContain (needle : List Char) : List Char → Bool
  | [] => charsBeginWith needle []
  | c :: t => charsBeginWith needle (c :: t) || charsContain needle t

/-- `line.includes("WARNING:")`. -/
def includesWarning (line : String) : Bool :=
  charsContain "WARNING:".toList line.toList

/-- Filesystem events of the publish step. -/
inductive FsEvent where
  | clearStart : FsEvent
  | writeMerged : Nat → FsEvent
  | removeDir : FsEvent
deriving DecidableEq

/-- `processGroup` for the k-th sealed group: nothing for an empty group;
otherwise write the merged composite, run the copy command, and throw when
its stderr has a non-warning line. -/
def processGroupPublish (copyStderr : Nat → List String) (k : Nat) {β : Type}
    (group : List β) : List FsEvent × Option String :=
  if group.length = 0 then ([], none)
  else
    let nonWarningLines := (copyStderr k).filter (fun line => !(includesWarning line))
    if 0 < nonWarningLines.length then
      ([FsEvent.writeMerged k], some "Failed to copy merged image to clipboard.")
    else
      ([FsEvent.writeMerged k], none)

/-- The full loop of `addImagesToClipboard` with its trailing
`processGroup(currentGroup)` and `rm -rf` of the temp directory: arguments
are remaining images, current group, current height, current size, index of
the next sealed group.  A throw inside `processGroup` propagates at once:
nothing after it runs. -/
def clipLoop {β : Type} (dims : β → Nat × Nat) (copyStderr : Nat → List String) :
    List β → List β → Nat → Nat → Nat → List FsEvent × Option String
  | [], cur, _, _, k =>
    let p := processGroupPublish copyStderr k cur
    match p.2 with
    | some e => (p.1, some e)
    | none => (p.1 ++ [FsEvent.removeDir], none)
  | img :: rest, cur, curH, curS, k =>
    let h := (dims img).1
    let s := (dims img).2
    if MAX_IMAGES_PER_GROUP ≤ cur.length ∨ MAX_HEIGHT < curH + h ∨
        MAX_SIZE_BYTES < curS + s then
      let p := processGroupPublish copyStderr k cur
      match p.2 with
      | some e => (p.1, some e)
      | none =>
        let r := clipLoop dims copyStderr rest [img] h s
          (if cur.length = 0 then k else k + 1)
        (p.1 ++ r.1, r.2)
    else
      clipLoop dims copyStderr rest (cur ++ [img]) (curH + h) (curS + s) k

/-- `addImagesToClipboard`: returns at once on an empty image list, then
checks for the pbcopy and osascript helpers, clears the temp directory,
runs the grouping/publish loop, and removes the temp directory at the end
of a fully successful run.  The returned pair is the filesystem event trace
and the thrown error, if any. -/
def addImagesToClipboard {β : Type} (dims : β → Nat × Nat)
    (hasPbcopy hasOsascript : Bool) (copyStderr : Nat → List String)
    (images : List β) : List FsEvent × Option String :=
  if images.length = 0 then ([], none)
  else if !hasPbcopy then
    ([], some "'pbcopy' command not found. This tool works on macOS only by default.")
  else if !hasOsascript then
    ([], some "'osascript' command not found. Required to set clipboard with images.")
  else
    let r := clipLoop dims copyStderr images [] 0 0 0
    (FsEvent.clearStart :: r.1, r.2)

/-! ## Result assembly after image acquisition (`fetchUrl`)

The tail of `fetchUrl`'s HTML branch: with acquired images in hand, try the
clipboard publish and assemble the `FetchResult`; a publish failure is
caught and turned into a prefix note, with the markdown content and image
URLs still returned. -/

/-- The `FetchResult` interface of the clipboard-enabled variant. -/
structure FetchResult where
  content : String
  prefixNote : String
  imageUrls : Option (List String)
deriving DecidableEq

/-- The publish-and-assemble tail of `fetchUrl`: `prefixNote` models the
`prefix` field of the source's `FetchResult`. -/
def publishAndAssemble {β : Type} (dims : β → Nat × Nat)
    (hasPbcopy hasOsascript : Bool) (copyStderr : Nat → List String)
    (markdown : String) (fetchedImages : List (FetchedImage β)) : FetchResult :=
  let imageUrls := fetchedImages.map (fun img => img.src)
  if 0 < fetchedImages.length then
    match (addImagesToClipboard dims hasPbcopy hasOsascript copyStderr
        (fetchedImages.map (fun img => img.data))).2 with
    | none =>
      { content := markdown,
        prefixNote := "Found and processed " ++ toString fetchedImages.length ++
          " images. Images have been merged vertically (max 6 images per group) and copied to your clipboard. Please paste (Cmd+V) to combine with the retrieved content.\n",
        imageUrls := some imageUrls }
    | some e =>
      { content := markdown,
        prefixNote := "Found " ++ toString fetchedImages.length ++
          " images but failed to copy them to the clipboard.\nError: " ++ e ++ "\n",
        imageUrls := some imageUrls }
  else
    { content := markdown, prefixNote := "", imageUrls := some imageUrls }

/-! ## Lemmas about the grouping loop -/

section GroupingLemmas

variable {β : Type}

theorem groupHeight_append (dims : β → Nat × Nat) (a b : List β) :
    groupHeight dims (a ++ b) = groupHeight dims a + groupHeight dims b := by
  simp [groupHeight]

theorem groupSize_append (dims : β → Nat × Nat) (a b : List β) :
    groupSize dims (a ++ b) = groupSize dims a + groupSize dims b := by
  simp [groupSize]

theorem groupHeight_singleton (dims : β → Nat × Nat) (b : β) :
    groupHeight dims [b] = (dims b).1 := by
  simp [groupHeight]

theorem groupSize_singleton (dims : β → Nat × Nat) (b : β) :
    groupSize dims [b] = (dims b).2 := by
  simp [groupSize]

theorem emitGroup_flatten (cur : List β) : (emitGroup cur).flatten = cur := by
  unfold emitGroup
  split
  · simp_all [List.length_eq_zero]
  · simp

theorem mem_emitGroup {g cur : List β} (h : g ∈ emitGroup cur) : g = cur := by
  unfold emitGroup at h
  split at h
  · simp at h
  · simpa using h

/-- Main induction over the grouping loop: assuming the running state is
well-formed, every output group is `goodGroup` and the concatenation of the
output is the sealed groups so far, the open group, then the remaining
images. -/
theorem groupLoop_spec (dims : β → Nat × Nat) (images : List β) :
    ∀ (done : List (List β)) (cur : List β) (curH curS : Nat),
      curH = groupHeight dims cur →
      curS = groupSize dims cur →
      cur.length ≤ MAX_IMAGES_PER_GROUP →
      (2 ≤ cur.length → curH ≤ MAX_HEIGHT ∧ curS ≤ MAX_SIZE_BYTES) →
      (∀ b ∈ cur, oversize dims b → cur = [b]) →
      (∀ g ∈ done, goodGroup dims g) →
      (∀ g ∈ groupLoop dims images done cur curH curS, goodGroup dims g) ∧
        (groupLoop dims images done cur curH curS).flatten =
          done.flatten ++ (cur ++ images) := by
  induction images with
  | nil =>
    intro done cur curH curS hH hS hlen hbnd hover hdone
    constructor
    · intro g hg
      rw [groupLoop] at hg
      rcases List.mem_append.mp hg with hgd | hge
      · exact hdone g hgd
      · rcases mem_emitGroup hge with rfl
        exact ⟨hlen, fun h2 => by rw [← hH, ← hS]; exact hbnd h2, hover⟩
    · rw [groupLoop]
      simp [emitGroup_flatten]
  | cons img rest ih =>
    intro done cur curH curS hH hS hlen hbnd hover hdone
    rw [groupLoop]
    by_cases hc : MAX_IMAGES_PER_GROUP ≤ cur.length ∨
        MAX_HEIGHT < curH + (dims img).1 ∨ MAX_SIZE_BYTES < curS + (dims img).2
    · rw [if_pos hc]
      have hnew := ih (done ++ emitGroup cur) [img] (dims img).1 (dims img).2
        (by rw [groupHeight_singleton]) (by rw [groupSize_singleton])
        (by simp [MAX_IMAGES_PER_GROUP])
        (by intro h2; simp at h2)
        (by intro b hb _; simp at hb; rw [hb])
        (by
          intro g hg
          rcases List.mem_append.mp hg with hgd | hge
          · exact hdone g hgd
          · rcases mem_emitGroup hge with rfl
            exact ⟨hlen, fun h2 => by rw [← hH, ← hS]; exact hbnd h2, hover⟩)
      refine ⟨hnew.1, ?_⟩
      rw [hnew.2]
      simp [emitGroup_flatten]
    · rw [if_neg hc]
      push_neg at hc
      obtain ⟨hc1, hc2, hc3⟩ := hc
      have hnew := ih done (cur ++ [img]) (curH + (dims img).1) (curS + (dims img).2)
        (by rw [groupHeight_append, groupHeight_singleton, hH])
        (by rw [groupSize_append, groupSize_singleton, hS])
        (by simpa using Nat.succ_le_of_lt (Nat.lt_of_not_le (fun h => absurd h (by omega))))
        (by intro _; exact ⟨hc2, hc3⟩)
        (by
          intro b hb hov
          exfalso
          rcases List.mem_append.mp hb with hbc | hbi
          · have hcur := hover b hbc hov
            subst hcur
            rw [groupHeight_singleton] at hH
            rw [groupSize_singleton] at hS
            rcases hov with h | h
            · omega
            · omega
          · simp at hbi
            subst hbi
            rcases hov with h | h
            · omega
            · omega)
        hdone
      refine ⟨hnew.1, ?_⟩
      rw [hnew.2]
      simp

/-- Top-level specification of the grouping step. -/
theorem groupImages_spec (dims : β → Nat × Nat) (images : List β) :
    (∀ g ∈ groupImages dims images, goodGroup dims g) ∧
      (groupImages dims images).flatten = images := by
  have h := groupLoop_spec dims images [] [] 0 0 rfl rfl
    (by simp [MAX_IMAGES_PER_GROUP]) (by intro h2; simp at h2)
    (by intro b hb; simp at hb) (by intro g hg; simp at hg)
  exact ⟨h.1, by simpa using h.2⟩

end GroupingLemmas

/-! ## Claims about the grouping step -/

/-- Claim C1, counterexample: a single image of height 9000 px is sealed as
its own group, whose cumulative height 9000 exceeds MAX_HEIGHT - so not every
produced group satisfies the cumulative height bound. -/
theorem grouping_height_counterexample :
    ¬ (∀ g ∈ groupImages ((fun _ => (9000, 1)) : Nat → Nat × Nat) [0],
        groupHeight (fun _ => (9000, 1)) g ≤ MAX_HEIGHT) := by
  decide

/-- Claim C1 (amended): every group sealed by the grouping loop of
`addImagesToClipboard` has at most MAX_IMAGES_PER_GROUP images; every group
with at least two images satisfies the cumulative height and size bounds (a
singleton group may exceed a bound when its sole image does); and
concatenating the groups in order reproduces the input sequence exactly. -/
theorem grouping_invariant_amended {β : Type} (dims : β → Nat × Nat)
    (images : List β) :
    (∀ g ∈ groupImages dims images,
      g.length ≤ MAX_IMAGES_PER_GROUP ∧
      (2 ≤ g.length →
        groupHeight dims g ≤ MAX_HEIGHT ∧ groupSize dims g ≤ MAX_SIZE_BYTES)) ∧
    (groupImages dims images).flatten = images := by
  obtain ⟨hg, hf⟩ := groupImages_spec dims images
  exact ⟨fun g h => ⟨(hg g h).1, (hg g h).2.1⟩, hf⟩

/-- Witness for the amended C1 theorem at a concrete input. -/
theorem grouping_invariant_witness :
    (∀ g ∈ groupImages ((fun n => (n, n)) : Nat → Nat × Nat) [100, 200, 300],
      g.length ≤ MAX_IMAGES_PER_GROUP ∧
      (2 ≤ g.length →
        groupHeight (fun n => (n, n)) g ≤ MAX_HEIGHT ∧
          groupSize (fun n => (n, n)) g ≤ MAX_SIZE_BYTES)) ∧
    (groupImages ((fun n => (n, n)) : Nat → Nat × Nat) [100, 200, 300]).flatten =
      [100, 200, 300] :=
  grouping_invariant_amended (fun n => (n, n)) [100, 200, 300]

/-- Claim C2: the grouping step never drops or rejects an image -
concatenating the groups reproduces the input exactly - and an image that by
itself exceeds a group constraint ends up alone in its own one-item group. -/
theorem grouping_never_drops {β : Type} (dims : β → Nat × Nat)
    (images : List β) :
    (groupImages dims images).flatten = images ∧
    ∀ g ∈ groupImages dims images, ∀ b ∈ g,
      (MAX_HEIGHT < (dims b).1 ∨ MAX_SIZE_BYTES < (dims b).2) → g = [b] := by
  obtain ⟨hg, hf⟩ := groupImages_spec dims images
  exact ⟨hf, fun g h b hb hov => (hg g h).2.2 b hb hov⟩

/-- Witness for C2 at a concrete input with an oversized image. -/
theorem grouping_never_drops_witness :
    (groupImages ((fun _ => (9000, 5)) : Nat → Nat × Nat) [7]).flatten = [7] ∧
    ∀ g ∈ groupImages ((fun _ => (9000, 5)) : Nat → Nat × Nat) [7], ∀ b ∈ g,
      (MAX_HEIGHT < ((fun _ => ((9000 : Nat), (5 : Nat))) b).1 ∨
        MAX_SIZE_BYTES < ((fun _ => ((9000 : Nat), (5 : Nat))) b).2) → g = [b] :=
  grouping_never_drops (fun _ => (9000, 5)) [7]

/-! ## Claims about the truncation window -/

/-- Claim C3: for a valid request, when the content is longer than
`maxLength` the handler returns the character slice
`[startIndex, startIndex + maxLength)` followed by the truncation notice
naming next start index `startIndex + maxLength`; when the content fits,
the content is returned unchanged with no notice appended. -/
theorem truncation_window (content : String) (maxLength startIndex : Nat)
    (hpos : 0 < maxLength) (hmax : maxLength ≤ 1000000) :
    (maxLength < content.length →
      finalContentOf content maxLength startIndex =
        jsSlice content startIndex (startIndex + maxLength) ++
          truncationNotice (startIndex + maxLength)) ∧
    (content.length ≤ maxLength →
      finalContentOf content maxLength startIndex = content) := by
  constructor
  · intro hgt
    simp [finalContentOf, hgt]
  · intro hle
    simp [finalContentOf, Nat.not_lt.mpr hle]

/-- Witness for C3: a concrete truncated request. -/
theorem truncation_window_witness :
    finalContentOf "abcdefgh" 3 2 = jsSlice "abcdefgh" 2 5 ++ truncationNotice 5 :=
  (truncation_window "abcdefgh" 3 2 (by decide) (by decide)).1 (by decide)

/-- Claim C10: when the content length is at most `maxLength`, the handler
returns the whole content from its beginning; `startIndex` has no effect
because the slice is applied only in the truncating branch. -/
theorem startIndex_ignored_when_content_fits (content : String)
    (maxLength startIndex : Nat) (hle : content.length ≤ maxLength) :
    finalContentOf content maxLength startIndex = content := by
  simp [finalContentOf, Nat.not_lt.mpr hle]

/-- Witness for C10: a nonzero start index with short content. -/
theorem startIndex_ignored_witness :
    finalContentOf "abc" 10 7 = "abc" :=
  startIndex_ignored_when_content_fits "abc" 10 7 (by decide)

/-! ## Claim about the robots policy gate -/

/-- Claim C4, counterexample: a transport-level failure of the robots.txt
fetch - the policy resource unavailable because the connection is refused -
propagates as an error and fails the invocation; the gate does not fail
open, refuting the claim's "unavailable for any other reason → allowed". -/
theorem checkRobotsTxt_transport_counterexample :
    (checkRobotsTxt (fun _ => ⟨"https:", "example.com"⟩)
        (fun _ => Except.error "network error: connect ECONNREFUSED")
        (fun _ _ _ _ => true) "https://example.com/a" "UA" =
      Except.error "network error: connect ECONNREFUSED") ∧
    checkRobotsTxt (fun _ => ⟨"https:", "example.com"⟩)
        (fun _ => Except.error "network error: connect ECONNREFUSED")
        (fun _ _ _ _ => true) "https://example.com/a" "UA" ≠ Except.ok true := by
  constructor
  · rfl
  · intro h
    simp [checkRobotsTxt] at h

/-- Claim C4 (amended): the gate fetches the policy at
scheme + host + "/robots.txt"; a completed 401 or 403 response fails closed
with a policy error regardless of the policy body; any other completed
non-ok response (including 404) fails open; a transport-level failure of the
policy fetch propagates as an error (no fail-open); an ok response whose
parsed policy disallows the client identity for the target URL raises the
descriptive denial error, and an allowing policy lets the fetch proceed. -/
theorem checkRobotsTxt_gate (parseUrl : String → UrlParts)
    (fetchText : String → Except String (HttpResponse String))
    (isAllowed : String → String → String → String → Bool)
    (url userAgent : String) :
    (∀ r : HttpResponse String,
      fetchText (robotsUrlOf (parseUrl url)) = Except.ok r →
      r.status = 401 ∨ r.status = 403 →
      checkRobotsTxt parseUrl fetchText isAllowed url userAgent =
        Except.error "Autonomous fetching not allowed based on robots.txt response") ∧
    (∀ r : HttpResponse String,
      fetchText (robotsUrlOf (parseUrl url)) = Except.ok r →
      respOk r = false → r.status ≠ 401 → r.status ≠ 403 →
      checkRobotsTxt parseUrl fetchText isAllowed url userAgent = Except.ok true) ∧
    (∀ e : String,
      fetchText (robotsUrlOf (parseUrl url)) = Except.error e →
      checkRobotsTxt parseUrl fetchText isAllowed url userAgent = Except.error e) ∧
    (∀ r : HttpResponse String,
      fetchText (robotsUrlOf (parseUrl url)) = Except.ok r →
      respOk r = true →
      isAllowed (robotsUrlOf (parseUrl url)) r.body url userAgent = false →
      checkRobotsTxt parseUrl fetchText isAllowed url userAgent =
        Except.error ("The site's robots.txt specifies that autonomous fetching is not allowed. " ++
          "Try manually fetching the page using the fetch prompt.")) ∧
    (∀ r : HttpResponse String,
      fetchText (robotsUrlOf (parseUrl url)) = Except.ok r →
      respOk r = true →
      isAllowed (robotsUrlOf (parseUrl url)) r.body url userAgent = true →
      checkRobotsTxt parseUrl fetchText isAllowed url userAgent = Except.ok true) := by
  refine ⟨?_, ?_, ?_, ?_, ?_⟩
  · intro r hr hst
    have hok : respOk r = false := by
      rcases hst with h | h <;> simp [respOk, h]
    rcases hst with h | h <;> simp [checkRobotsTxt, hr, hok, h]
  · intro r hr hok h1 h3
    simp [checkRobotsTxt, hr, hok, h1, h3]
  · intro e he
    simp [checkRobotsTxt, he]
  · intro r hr hok hdis
    simp [checkRobotsTxt, hr, hok, hdis]
  · intro r hr hok hall
    simp [checkRobotsTxt, hr, hok, hall]

/-- Witness for the amended C4 theorem: the five gate outcomes at concrete
inputs; the 403 case carries an explicitly allowing policy body, showing the
denial ignores the policy content. -/
theorem checkRobotsTxt_gate_witness :
    (checkRobotsTxt (fun _ => ⟨"https:", "example.com"⟩)
        (fun _ => Except.ok ⟨403, "User-agent: *"⟩) (fun _ _ _ _ => true)
        "https://example.com/a" "UA" =
      Except.error "Autonomous fetching not allowed based on robots.txt response") ∧
    (checkRobotsTxt (fun _ => ⟨"https:", "example.com"⟩)
        (fun _ => Except.ok ⟨404, ""⟩) (fun _ _ _ _ => false)
        "https://example.com/a" "UA" = Except.ok true) ∧
    (checkRobotsTxt (fun _ => ⟨"https:", "example.com"⟩)
        (fun _ => Except.error "getaddrinfo ENOTFOUND example.com")
        (fun _ _ _ _ => true) "https://example.com/a" "UA" =
      Except.error "getaddrinfo ENOTFOUND example.com") ∧
    (checkRobotsTxt (fun _ => ⟨"https:", "example.com"⟩)
        (fun _ => Except.ok ⟨200, "User-agent: *"⟩) (fun _ _ _ _ => false)
        "https://example.com/a" "UA" =
      Except.error ("The site's robots.txt specifies that autonomous fetching is not allowed. " ++
        "Try manually fetching the page using the fetch prompt.")) ∧
    (checkRobotsTxt (fun _ => ⟨"https:", "example.com"⟩)
        (fun _ => Except.ok ⟨200, "User-agent: *"⟩) (fun _ _ _ _ => true)
        "https://example.com/a" "UA" = Except.ok true) :=
  ⟨(checkRobotsTxt_gate (fun _ => ⟨"https:", "example.com"⟩)
      (fun _ => Except.ok ⟨403, "User-agent: *"⟩) (fun _ _ _ _ => true)
      "https://example.com/a" "UA").1 ⟨403, "User-agent: *"⟩ rfl (Or.inr rfl),
   (checkRobotsTxt_gate (fun _ => ⟨"https:", "example.com"⟩)
      (fun _ => Except.ok ⟨404, ""⟩) (fun _ _ _ _ => false)
      "https://example.com/a" "UA").2.1 ⟨404, ""⟩ rfl (by decide) (by decide) (by decide),
   (checkRobotsTxt_gate (fun _ => ⟨"https:", "example.com"⟩)
      (fun _ => Except.error "getaddrinfo ENOTFOUND example.com")
      (fun _ _ _ _ => true)
      "https://example.com/a" "UA").2.2.1 "getaddrinfo ENOTFOUND example.com" rfl,
   (checkRobotsTxt_gate (fun _ => ⟨"https:", "example.com"⟩)
      (fun _ => Except.ok ⟨200, "User-agent: *"⟩) (fun _ _ _ _ => false)
      "https://example.com/a" "UA").2.2.2.1 ⟨200, "User-agent: *"⟩ rfl (by decide) rfl,
   (checkRobotsTxt_gate (fun _ => ⟨"https:", "example.com"⟩)
      (fun _ => Except.ok ⟨200, "User-agent: *"⟩) (fun _ _ _ _ => true)
      "https://example.com/a" "UA").2.2.2.2 ⟨200, "User-agent: *"⟩ rfl (by decide) rfl⟩

/-! ## Claim about article-scoped image extraction -/

/-- Claim C6: when readability yields a non-empty article, the image list is
exactly the `img` elements of the extracted article content - not of the
whole page - in document order, with missing alt text defaulted to the empty
string; and any property of the element sources (such as being an absolute
URL, which the DOM layer guarantees by reflecting resolved `src`
attributes) carries over unchanged to the listed sourceURLs. -/
theorem extract_images_article_scope
    (readabilityParse : String → String → Option String)
    (querySelectImgs : String → List ImgEl)
    (turndown : String → String)
    (absUrl : String → Bool)
    (html url articleContent : String)
    (hparse : readabilityParse html url = some articleContent)
    (hne : articleContent ≠ "") :
    extractContentFromHtml readabilityParse querySelectImgs turndown html url =
      Except.ok { markdown := turndown articleContent,
                  images := (querySelectImgs articleContent).map
                    (fun img => { src := img.src, alt := img.alt.getD "" }) } ∧
    ((∀ img ∈ querySelectImgs articleContent, absUrl img.src = true) →
      ∀ ir ∈ (querySelectImgs articleContent).map
          (fun img => ({ src := img.src, alt := img.alt.getD "" } : ImageRec)),
        absUrl ir.src = true) := by
  constructor
  · simp [extractContentFromHtml, hparse, hne]
  · intro habs ir hir
    rcases List.mem_map.mp hir with ⟨img, himg, rfl⟩
    exact habs img himg

/-- Witness for C6 at a concrete page with two images, one with alt text
absent. -/
theorem extract_images_article_scope_witness :
    extractContentFromHtml (fun _ _ => some "<p>article</p>")
        (fun _ => [⟨"https://e.com/1.png", some "one"⟩, ⟨"https://e.com/2.png", none⟩])
        (fun _ => "article md") "<html>page</html>" "https://e.com/a" =
      Except.ok { markdown := "article md",
                  images := [⟨"https://e.com/1.png", "one"⟩, ⟨"https://e.com/2.png", ""⟩] } ∧
    ((∀ img ∈ [(⟨"https://e.com/1.png", some "one"⟩ : ImgEl), ⟨"https://e.com/2.png", none⟩],
        charsBeginWith "https:".toList img.src.toList = true) →
      ∀ ir ∈ [(⟨"https://e.com/1.png", some "one"⟩ : ImgEl),
          ⟨"https://e.com/2.png", none⟩].map
          (fun img => ({ src := img.src, alt := img.alt.getD "" } : ImageRec)),
        charsBeginWith "https:".toList ir.src.toList = true) :=
  extract_images_article_scope (fun _ _ => some "<p>article</p>")
    (fun _ => [⟨"https://e.com/1.png", some "one"⟩, ⟨"https://e.com/2.png", none⟩])
    (fun _ => "article md") (fun s => charsBeginWith "https:".toList s.toList)
    "<html>page</html>" "https://e.com/a" "<p>article</p>" rfl (by decide)

/-! ## Claims about image acquisition -/

/-- Helper: when every image of the batch gets an ok response, the
sequential acquisition loop succeeds and maps each image to its
GIF-normalized buffer, in order. -/
theorem fetchImages_all_ok {β : Type}
    (fetchResp : String → Except String (HttpResponse β))
    (metadata : β → Except String SharpMetadata)
    (firstFramePng : β → Except String β)
    (resp : ImageRec → HttpResponse β) :
    ∀ images : List ImageRec,
      (∀ img ∈ images, fetchResp img.src = Except.ok (resp img)) →
      (∀ img ∈ images, respOk (resp img) = true) →
      fetchImages fetchResp metadata firstFramePng images =
        Except.ok (images.map (fun img =>
          { src := img.src, alt := img.alt,
            data := gifNormalize metadata firstFramePng img.src (resp img).body })) := by
  intro images
  induction images with
  | nil => intro _ _; rfl
  | cons img rest ih =>
    intro hresp hok
    have h1 : fetchResp img.src = Except.ok (resp img) :=
      hresp img (List.mem_cons_self img rest)
    have h2 : respOk (resp img) = true :=
      hok img (List.mem_cons_self img rest)
    have h3 := ih (fun i hi => hresp i (List.mem_cons_of_mem img hi))
      (fun i hi => hok i (List.mem_cons_of_mem img hi))
    rw [fetchImages, h1]
    simp [h2, h3]

/-- Claim C7: in a batch where every response is ok, each image's stored
bytes are its GIF-normalization, and the normalization behaves as claimed:
non-GIF URLs pass through; a failed metadata probe keeps the original bytes;
a GIF with no page count or at most one page passes through; a multi-frame
GIF is replaced by the PNG re-encoding of its first frame; and a failed
re-encode falls back to the original bytes. -/
theorem fetchImages_gif_handling {β : Type}
    (fetchResp : String → Except String (HttpResponse β))
    (metadata : β → Except String SharpMetadata)
    (firstFramePng : β → Except String β)
    (resp : ImageRec → HttpResponse β)
    (images : List ImageRec)
    (hresp : ∀ img ∈ images, fetchResp img.src = Except.ok (resp img))
    (hok : ∀ img ∈ images, respOk (resp img) = true) :
    fetchImages fetchResp metadata firstFramePng images =
      Except.ok (images.map (fun img =>
        { src := img.src, alt := img.alt,
          data := gifNormalize metadata firstFramePng img.src (resp img).body })) ∧
    (∀ src b, src.toLower.endsWith ".gif" = false →
      gifNormalize metadata firstFramePng src b = b) ∧
    (∀ src b e, metadata b = Except.error e →
      gifNormalize metadata firstFramePng src b = b) ∧
    (∀ src b md, metadata b = Except.ok md → md.pages = none →
      gifNormalize metadata firstFramePng src b = b) ∧
    (∀ src b md p, metadata b = Except.ok md → md.pages = some p → p ≤ 1 →
      gifNormalize metadata firstFramePng src b = b) ∧
    (∀ src b md p ff, src.toLower.endsWith ".gif" = true →
      metadata b = Except.ok md → md.pages = some p → 1 < p →
      firstFramePng b = Except.ok ff →
      gifNormalize metadata firstFramePng src b = ff) ∧
    (∀ src b md p e, metadata b = Except.ok md → md.pages = some p → 1 < p →
      firstFramePng b = Except.error e →
      gifNormalize metadata firstFramePng src b = b) := by
  refine ⟨fetchImages_all_ok fetchResp metadata firstFramePng resp images hresp hok,
    ?_, ?_, ?_, ?_, ?_, ?_⟩
  · intro src b hgif
    simp [gifNormalize, hgif]
  · intro src b e hmd
    by_cases hgif : src.toLower.endsWith ".gif" <;> simp [gifNormalize, hgif, hmd]
  · intro src b md hmd hp
    by_cases hgif : src.toLower.endsWith ".gif" <;> simp [gifNormalize, hgif, hmd, hp]
  · intro src b md p hmd hp hle
    by_cases hgif : src.toLower.endsWith ".gif" <;>
      simp [gifNormalize, hgif, hmd, hp, Nat.not_lt.mpr hle]
  · intro src b md p ff hgif hmd hp hlt hff
    simp [gifNormalize, hgif, hmd, hp, hlt, hff]
  · intro src b md p e hmd hp hlt hff
    by_cases hgif : src.toLower.endsWith ".gif" <;>
      simp [gifNormalize, hgif, hmd, hp, hlt, hff]

/-- Witness for C7: one animated GIF whose metadata reports three pages; its
bytes are replaced by the first-frame re-encoding. -/
theorem fetchImages_gif_handling_witness :
    fetchImages (β := Nat) (fun _ => Except.ok ⟨200, 42⟩)
        (fun _ => Except.ok ⟨some 10, some 20, some 3⟩)
        (fun b => Except.ok (b + 1))
        [⟨"https://e.com/a.gif", ""⟩] =
      Except.ok ([⟨"https://e.com/a.gif", ""⟩].map (fun img =>
        { src := img.src, alt := img.alt,
          data := gifNormalize (β := Nat) (fun _ => Except.ok ⟨some 10, some 20, some 3⟩)
            (fun b => Except.ok (b + 1)) img.src
            (((fun (_ : ImageRec) => (⟨200, 42⟩ : HttpResponse Nat)) img)).body })) :=
  (fetchImages_gif_handling (fun _ => Except.ok ⟨200, 42⟩)
    (fun _ => Except.ok ⟨some 10, some 20, some 3⟩)
    (fun b => Except.ok (b + 1))
    (fun _ => ⟨200, 42⟩)
    [⟨"https://e.com/a.gif", ""⟩]
    (fun _ _ => rfl) (fun _ _ => rfl)).1

/-- Claim C5, counterexample: with three images of which the second gets a
404, the sequential acquisition loop aborts the whole batch - the already
acquired first image and the still fetchable third are both discarded and
the result is an error, not a list of the successfully acquired images. -/
theorem fetchImages_abort_counterexample :
    fetchImages (β := Nat)
        (fun src => if src == "https://e.com/b.png"
          then Except.ok ⟨404, 0⟩ else Except.ok ⟨200, 1⟩)
        (fun _ => Except.error "no metadata") (fun b => Except.ok b)
        [⟨"https://e.com/a.png", ""⟩, ⟨"https://e.com/b.png", ""⟩,
          ⟨"https://e.com/c.png", ""⟩] =
      Except.error "Failed to fetch image https://e.com/b.png: status 404" := by
  rfl

/-- Helper: prepending successfully acquired images to a batch whose
remainder errors leaves the sequential loop's error unchanged - the prefix's
acquisitions are discarded. -/
theorem fetchImages_error_append {β : Type}
    (fetchResp : String → Except String (HttpResponse β))
    (metadata : β → Except String SharpMetadata)
    (firstFramePng : β → Except String β) :
    ∀ (pre tail : List ImageRec) (E : String),
      (∀ j ∈ pre, imgAcquired fetchResp j = true) →
      fetchImages fetchResp metadata firstFramePng tail = Except.error E →
      fetchImages fetchResp metadata firstFramePng (pre ++ tail) = Except.error E := by
  intro pre
  induction pre with
  | nil =>
    intro tail E _ htail
    simpa using htail
  | cons j rest ih =>
    intro tail E hpre htail
    have hj := hpre j (List.mem_cons_self j rest)
    have hrest := ih tail E (fun i hi => hpre i (List.mem_cons_of_mem j hi)) htail
    rcases hr : fetchResp j.src with e | r
    · simp [imgAcquired, hr] at hj
    · have hok : respOk r = true := by simpa [imgAcquired, hr] using hj
      rw [List.cons_append, fetchImages, hr]
      simp [hok, hrest]

/-- Claim C5 (amended): the two acquisition variants resolve per-image
failure differently.  The sequential loop aborts the whole batch with an
error on the image, at any position, whose response is not ok - every image
acquired before it is discarded; the concurrent variant skips failed
images, returning exactly the successfully acquired images in input order,
its count equal to the number of successes. -/
theorem fetchImages_failure_policy {β : Type}
    (fetchResp : String → Except String (HttpResponse β)) :
    (∀ (pre : List ImageRec) (img : ImageRec) (rest : List ImageRec)
        (r : HttpResponse β)
        (metadata : β → Except String SharpMetadata)
        (firstFramePng : β → Except String β),
      (∀ j ∈ pre, imgAcquired fetchResp j = true) →
      fetchResp img.src = Except.ok r → respOk r = false →
      fetchImages fetchResp metadata firstFramePng (pre ++ img :: rest) =
        Except.error ("Failed to fetch image " ++ img.src ++ ": status " ++
          toString r.status)) ∧
    (∀ images : List ImageRec,
      (fetchImagesLenient fetchResp images).map (fun fi => ImageRec.mk fi.src fi.alt) =
        images.filter (fun img => imgAcquired fetchResp img) ∧
      (fetchImagesLenient fetchResp images).length =
        (images.filter (fun img => imgAcquired fetchResp img)).length) := by
  constructor
  · intro pre img rest r metadata firstFramePng hpre hr hok
    have hhead : fetchImages fetchResp metadata firstFramePng (img :: rest) =
        Except.error ("Failed to fetch image " ++ img.src ++ ": status " ++
          toString r.status) := by
      rw [fetchImages, hr]
      simp [hok]
    exact fetchImages_error_append fetchResp metadata firstFramePng
      pre (img :: rest) _ hpre hhead
  · intro images
    have hmain : (fetchImagesLenient fetchResp images).map
        (fun fi => ImageRec.mk fi.src fi.alt) =
        images.filter (fun img => imgAcquired fetchResp img) := by
      induction images with
      | nil => rfl
      | cons img rest ih =>
        rcases hr : fetchResp img.src with e | r
        · simp [fetchImagesLenient, List.filter_cons, imgAcquired, hr] at ih ⊢
          exact ih
        · rcases hok : respOk r with _ | _
          · simp [fetchImagesLenient, List.filter_cons, imgAcquired, hr, hok] at ih ⊢
            exact ih
          · simp [fetchImagesLenient, List.filter_cons, imgAcquired, hr, hok] at ih ⊢
            exact ih
    refine ⟨hmain, ?_⟩
    rw [← hmain, List.length_map]

/-- Witness for C5's amended theorem: a batch of three images whose second
fetch returns 404 after a successfully acquired first; the sequential loop
errors, the concurrent variant keeps exactly the first and third images. -/
theorem fetchImages_failure_policy_witness :
    (fetchImages (β := Nat)
        (fun src => if src == "https://e.com/b.png"
          then Except.ok ⟨404, 0⟩ else Except.ok ⟨200, 1⟩)
        (fun _ => Except.error "no metadata") (fun b => Except.ok b)
        ([⟨"https://e.com/a.png", ""⟩] ++
          ⟨"https://e.com/b.png", ""⟩ :: [⟨"https://e.com/c.png", ""⟩]) =
      Except.error ("Failed to fetch image " ++ "https://e.com/b.png" ++
        ": status " ++ toString (404 : Nat))) ∧
    ((fetchImagesLenient (β := Nat)
        (fun src => if src == "https://e.com/b.png"
          then Except.ok ⟨404, 0⟩ else Except.ok ⟨200, 1⟩)
        [⟨"https://e.com/a.png", ""⟩, ⟨"https://e.com/b.png", ""⟩,
          ⟨"https://e.com/c.png", ""⟩]).map
          (fun fi => ImageRec.mk fi.src fi.alt) =
      [⟨"https://e.com/a.png", ""⟩, ⟨"https://e.com/b.png", ""⟩,
          ⟨"https://e.com/c.png", ""⟩].filter
        (fun img => imgAcquired
          (fun src => if src == "https://e.com/b.png"
            then Except.ok (⟨404, 0⟩ : HttpResponse Nat) else Except.ok ⟨200, 1⟩) img)) :=
  ⟨(fetchImages_failure_policy
      (fun src => if src == "https://e.com/b.png"
        then Except.ok ⟨404, 0⟩ else Except.ok ⟨200, 1⟩)).1
    [⟨"https://e.com/a.png", ""⟩] ⟨"https://e.com/b.png", ""⟩
    [⟨"https://e.com/c.png", ""⟩] ⟨404, 0⟩
    (fun _ => Except.error "no metadata") (fun b => Except.ok b)
    (by decide) rfl (by decide),
   ((fetchImages_failure_policy
      (fun src => if src == "https://e.com/b.png"
        then Except.ok ⟨404, 0⟩ else Except.ok ⟨200, 1⟩)).2
    [⟨"https://e.com/a.png", ""⟩, ⟨"https://e.com/b.png", ""⟩,
      ⟨"https://e.com/c.png", ""⟩]).1⟩

/-! ## Claims about the clipboard publish step -/

/-- Helper: whenever the publish loop finishes without an error, its trace
ends by removing the temp directory. -/
theorem clipLoop_removeDir {β : Type} (dims : β → Nat × Nat)
    (copyStderr : Nat → List String) :
    ∀ (images cur : List β) (curH curS k : Nat),
      (clipLoop dims copyStderr images cur curH curS k).2 = none →
      FsEvent.removeDir ∈ (clipLoop dims copyStderr images cur curH curS k).1 := by
  intro images
  induction images with
  | nil =>
    intro cur curH curS k h
    rw [clipLoop] at h ⊢
    rcases hp : (processGroupPublish copyStderr k cur).2 with _ | e
    · simp [hp]
    · simp [hp] at h
  | cons img rest ih =>
    intro cur curH curS k h
    rw [clipLoop] at h ⊢
    by_cases hc : MAX_IMAGES_PER_GROUP ≤ cur.length ∨
        MAX_HEIGHT < curH + (dims img).1 ∨ MAX_SIZE_BYTES < curS + (dims img).2
    · rw [if_pos hc] at h ⊢
      rcases hp : (processGroupPublish copyStderr k cur).2 with _ | e
      · simp only [hp] at h ⊢
        exact List.mem_append_right _ (ih _ _ _ _ h)
      · simp [hp] at h
    · rw [if_neg hc] at h ⊢
      exact ih _ _ _ _ h

/-- Claim C8, counterexample: with helpers present and one image whose copy
command reports a hard (non-warning) error, the publish step throws after
writing the composite, and the temp directory removal never runs - the
temporary artifacts survive this failing execution path. -/
theorem addImagesToClipboard_cleanup_counterexample :
    ((addImagesToClipboard (β := Nat) (fun _ => (10, 10)) true true
        (fun _ => ["execution error: some hard failure"]) [0]).2 =
      some "Failed to copy merged image to clipboard.") ∧
    FsEvent.removeDir ∉ (addImagesToClipboard (β := Nat) (fun _ => (10, 10)) true true
        (fun _ => ["execution error: some hard failure"]) [0]).1 := by
  decide

/-- Claim C8 (amended): with the helper executables present and a non-empty
image list, the publish step clears the temp directory as its first
filesystem action, and removes the temp directory at the end whenever it
finishes without an error; when a copy operation fails, the throw propagates
at once and the end-of-step removal does not run. -/
theorem addImagesToClipboard_cleanup {β : Type} (dims : β → Nat × Nat)
    (copyStderr : Nat → List String) (images : List β) (hne : images ≠ []) :
    (addImagesToClipboard dims true true copyStderr images).1.head? =
      some FsEvent.clearStart ∧
    ((addImagesToClipboard dims true true copyStderr images).2 = none →
      FsEvent.removeDir ∈ (addImagesToClipboard dims true true copyStderr images).1) := by
  have hlen : ¬ images.length = 0 := by
    simpa [List.length_eq_zero] using hne
  constructor
  · simp [addImagesToClipboard, hlen]
  · intro h
    simp only [addImagesToClipboard, if_neg hlen, Bool.not_true,
      Bool.false_eq_true, if_false] at h ⊢
    exact List.mem_cons_of_mem _ (clipLoop_removeDir dims copyStderr images [] 0 0 0 h)

/-- Witness for the amended C8 theorem: a successful run over one image. -/
theorem addImagesToClipboard_cleanup_witness :
    (addImagesToClipboard (β := Nat) (fun _ => (10, 10)) true true
        (fun _ => []) [0]).1.head? = some FsEvent.clearStart ∧
    ((addImagesToClipboard (β := Nat) (fun _ => (10, 10)) true true
        (fun _ => []) [0]).2 = none →
      FsEvent.removeDir ∈ (addImagesToClipboard (β := Nat) (fun _ => (10, 10)) true true
        (fun _ => []) [0]).1) :=
  addImagesToClipboard_cleanup (fun _ => (10, 10)) (fun _ => []) [0] (by decide)

/-! ## Claim about degrading a clipboard failure to a note -/

/-- Claim C9: when images were acquired and the clipboard publish step fails
with error `e` - helper executables missing or a copy command reporting a
hard error - the markdown content and the image URL list are still returned,
with a prefix note describing the failure; the result is an ordinary
`FetchResult`, never a whole-invocation error. -/
theorem clipboard_failure_keeps_content {β : Type} (dims : β → Nat × Nat)
    (hasPbcopy hasOsascript : Bool) (copyStderr : Nat → List String)
    (markdown : String) (fetchedImages : List (FetchedImage β)) (e : String)
    (hne : 0 < fetchedImages.length)
    (hfail : (addImagesToClipboard dims hasPbcopy hasOsascript copyStderr
        (fetchedImages.map (fun img => img.data))).2 = some e) :
    publishAndAssemble dims hasPbcopy hasOsascript copyStderr markdown fetchedImages =
      { content := markdown,
        prefixNote := "Found " ++ toString fetchedImages.length ++
          " images but failed to copy them to the clipboard.\nError: " ++ e ++ "\n",
        imageUrls := some (fetchedImages.map (fun img => img.src)) } := by
  simp [publishAndAssemble, hne, hfail]

/-- Witness for C9: the pbcopy helper is missing; the content and image URL
list still come back, annotated with the failure note. -/
theorem clipboard_failure_keeps_content_witness :
    publishAndAssemble (β := Nat) (fun _ => (10, 10)) false true (fun _ => [])
        "article md" [⟨"https://e.com/a.png", "", 0⟩] =
      { content := "article md",
        prefixNote := "Found " ++ toString [(⟨"https://e.com/a.png", "", 0⟩ : FetchedImage Nat)].length ++
          " images but failed to copy them to the clipboard.\nError: " ++
          "'pbcopy' command not found. This tool works on macOS only by default." ++ "\n",
        imageUrls := some ([(⟨"https://e.com/a.png", "", 0⟩ : FetchedImage Nat)].map
          (fun img => img.src)) } :=
  clipboard_failure_keeps_content (fun _ => (10, 10)) false true (fun _ => [])
    "article md" [⟨"https://e.com/a.png", "", 0⟩]
    "'pbcopy' command not found. This tool works on macOS only by default."
    (by decide) rfl

end McpFetch
